import Mathlib

/-!
Shallow embedding of `src/quick_setup.py` (Django-quick-setup).

The script is a linear orchestrator: it probes for a virtual environment,
optionally prompts the user, provisions the environment, installs
dependencies, runs three Django management commands, and optionally starts
the development server.  We model it as explicit state passing:

* `World` carries the run inputs: whether the venv path pre-exists, the
  four prompt answers, the CLI arguments, an oracle `cmdExit` giving the
  exit status of the i-th external command issued, an optional interrupt
  point (`interruptAt` is the index of the interactive step at which a
  KeyboardInterrupt fires), and the socket environment for IP discovery.
* `St` is the observable trace: the list of shell commands issued so far,
  the running command/step counters, and the lines printed.
* `Outcome` models normal return, `sys.exit(code)` (the Python `SystemExit`,
  which the `except KeyboardInterrupt` handler does not catch), and a
  pending `KeyboardInterrupt`.

Machine-level simplification: the text of `str(CalledProcessError)` is
modelled as a fixed message carrying the exit status (the Python string
also embeds the command text); nothing below depends on its exact shape.
-/

namespace QuickSetup

/-- Python `str.lower`, modelled characterwise (the script only compares
against the ASCII tokens "y" and "n"). -/
def pyLower (s : String) : String := String.mk (s.data.map Char.toLower)

/-- Result of a modelled step: normal return, process exit (`sys.exit`),
or a KeyboardInterrupt propagating towards the top-level handler. -/
inductive Outcome (α : Type) where
  | ok (a : α)
  | exited (code : Nat)
  | interrupted
  deriving Repr, DecidableEq

/-- Environment for `get_local_ip`: which of the socket operations succeed,
the local address the OS would report, and the text of the raised error. -/
structure SocketEnv where
  socketOk : Bool
  connectOk : Bool
  getsocknameOk : Bool
  localAddr : String
  errText : String
  deriving Repr, DecidableEq

/-- Observable effects of one call to `get_local_ip`. -/
structure IpResult where
  result : Option String
  socketCreated : Bool
  socketClosed : Bool
  printed : List String
  deriving Repr, DecidableEq

/-- Inputs of one run of the script. -/
structure World where
  venvExists : Bool
  reinstallAns : String
  runAnywayAns : String
  startServerAns : String
  exposeAns : String
  requirements : String
  projectDir : String
  scriptDir : String
  cmdExit : Nat → Nat
  interruptAt : Option Nat
  sock : SocketEnv

/-- Observable trace of a run: commands issued to the shell in order,
count of commands issued, count of interactive steps taken (commands and
prompts, the interruptible points), and printed lines. -/
structure St where
  issued : List String
  cmdIdx : Nat
  stepIdx : Nat
  out : List String
  deriving Repr, DecidableEq

def St.init : St := ⟨[], 0, 0, []⟩

/-- `os.path.join` in the target layout of the script (it hardcodes the
Windows `Scripts` directory, so the separator is a backslash). -/
def pathJoin (a b : String) : String := a ++ "\\" ++ b

/-- Command string built at line 64: `python -m venv {venv_path}`. -/
def venvCreateCommand (venvPath : String) : String := "python -m venv " ++ venvPath

/-- Command string built at line 68: `os.path.join(venv_path, "Scripts", "activate")`. -/
def activateScript (venvPath : String) : String :=
  pathJoin (pathJoin venvPath "Scripts") "activate"

/-- Command string built at line 74: `{venv_path}\Scripts\pip install -r {requirements_path}`. -/
def pipInstallCommand (venvPath requirementsPath : String) : String :=
  venvPath ++ "\\Scripts\\pip install -r " ++ requirementsPath

/-- Command strings built at lines 79-81 and 96-98:
`{venv_path}\Scripts\python {project_dir}\manage.py {subcommand}`. -/
def manageCommand (venvPath projectDir subcommand : String) : String :=
  venvPath ++ "\\Scripts\\python " ++ pathJoin projectDir "manage.py" ++ " " ++ subcommand

def sectionMessage (name : String) : String :=
  "\x1b[94mRunning " ++ name ++ "...\x1b[0m"

def doneMessage : String := "\n\x1b[92m✓  Done!\x1b[0m\n"

def errorMessage (code : Nat) : String :=
  "\x1b[91mError: Command returned non-zero exit status " ++ toString code ++ ".\x1b[0m"

def ipErrorMessage (e : String) : String := "\x1b[91mError: " ++ e ++ "\x1b[0m"

def reinstallQuestion : String :=
  "\x1b[93mA virtual environment already exists. Reinstall the project? (y/n): \x1b[0m"

def runAnywayQuestion : String :=
  "\x1b[93mRun the management commands anyway? (y/n): \x1b[0m"

def startServerQuestion : String :=
  "\n\x1b[94mStart the Django development server? (y/n): \x1b[0m"

def exposeQuestion : String :=
  "\n\x1b[93mExpose the server to the network? (y/n): \x1b[0m"

def exposeWarning1 : String :=
  "\n\x1b[91mWARNING: Exposing the server to the network may pose security risks."

def exposeWarning2 : String := "Please ensure proper security measures are in place."

def ipAccessMessage (ip : String) : String :=
  "\n\x1b[92mYou can access the server from other devices on the network using this IP: "
    ++ ip ++ ":8000\x1b[0m"

def ipUnknownMessage : String :=
  "\n\x1b[91mUnable to determine the local IP address. You can manually find it and use it to access the server.\x1b[0m"

def creatingVenvMessage : String := "\x1b[97mCreating a virtual environment...\x1b[0m"

def installingMessage : String := "\x1b[97mInstalling project dependencies...\x1b[0m\n"

def initialCommandsMessage : String :=
  "\x1b[97mRunning initial management commands...\x1b[0m\n"

def skipDoneMessage : String :=
  "\x1b[92mSetup completed without reinstalling the project.\x1b[0m"

def finalSuccessMessage : String :=
  "\n\x1b[92mSetup and server run completed successfully!\x1b[0m"

def interruptMessage : String := "\n\x1b[91mKeyboardInterrupt. Exiting...\x1b[0m"

/-- Lines 34-43: `run_command`.  Prints the optional section header, then
runs the command through the shell (`subprocess.run(..., check=True)`).
A zero exit status prints the confirmation marker and returns normally; a
non-zero status raises `CalledProcessError`, which is caught, reported,
and converted into `sys.exit(1)`.  The subprocess call is an
interruptible step. -/
def run_command (w : World) (command : String) (sectionName : Option String) (s : St) :
    St × Outcome Unit :=
  let s1 := match sectionName with
    | some name => { s with out := s.out ++ [sectionMessage name] }
    | none => s
  if w.interruptAt = some s1.stepIdx then (s1, Outcome.interrupted)
  else
    let code := w.cmdExit s1.cmdIdx
    let s2 := { s1 with issued := s1.issued ++ [command], cmdIdx := s1.cmdIdx + 1,
                        stepIdx := s1.stepIdx + 1 }
    if code = 0 then
      ({ s2 with out := s2.out ++ [doneMessage] }, Outcome.ok ())
    else
      ({ s2 with out := s2.out ++ [errorMessage code] }, Outcome.exited 1)

/-- A call to the Python `input(question)` builtin: prints the prompt and yields the
answer of the user; an interruptible step. -/
def promptInput (w : World) (question answer : String) (s : St) : St × Outcome String :=
  if w.interruptAt = some s.stepIdx then (s, Outcome.interrupted)
  else ({ s with stepIdx := s.stepIdx + 1, out := s.out ++ [question] }, Outcome.ok answer)

/-- Lines 46-56: `get_local_ip`.  Opens a UDP socket, connects to
8.8.8.8:80, reads the local address, closes the socket, and returns the
address.  Any exception is caught by the `except Exception` clause, which
prints the error and returns `None`; note that the `s.close()` call sits
on the success path only (there is no `finally`), so a failure after
socket creation leaves the socket unclosed. -/
def get_local_ip (env : SocketEnv) : IpResult :=
  if env.socketOk = false then
    ⟨none, false, false, [ipErrorMessage env.errText]⟩
  else if env.connectOk = false then
    ⟨none, true, false, [ipErrorMessage env.errText]⟩
  else if env.getsocknameOk = false then
    ⟨none, true, false, [ipErrorMessage env.errText]⟩
  else
    ⟨some env.localAddr, true, true, []⟩

/-- Sequencing of fatal-exit steps: a `sys.exit` or an interrupt in the
first step skips the continuation. -/
def andThen (r : St × Outcome Unit) (k : St → St × Outcome Unit) : St × Outcome Unit :=
  match r with
  | (s, Outcome.ok _) => k s
  | (s, Outcome.exited c) => (s, Outcome.exited c)
  | (s, Outcome.interrupted) => (s, Outcome.interrupted)

/-- Sequencing after a prompt. -/
def andThenStr (r : St × Outcome String) (k : St → String → St × Outcome Unit) :
    St × Outcome Unit :=
  match r with
  | (s, Outcome.ok a) => k s a
  | (s, Outcome.exited c) => (s, Outcome.exited c)
  | (s, Outcome.interrupted) => (s, Outcome.interrupted)

/-- Lines 62-64: `create_virtual_environment`. -/
def create_virtual_environment (w : World) (venvPath : String) (s : St) :
    St × Outcome Unit :=
  let s := { s with out := s.out ++ [creatingVenvMessage] }
  run_command w (venvCreateCommand venvPath) none s

/-- Lines 67-69: `activate_virtual_environment` runs the venv activate
script as a shell command of its own. -/
def activate_virtual_environment (w : World) (venvPath : String) (s : St) :
    St × Outcome Unit :=
  run_command w (activateScript venvPath) none s

/-- Lines 72-74: `install_dependencies`. -/
def install_dependencies (w : World) (venvPath requirementsPath : String) (s : St) :
    St × Outcome Unit :=
  let s := { s with out := s.out ++ [installingMessage] }
  run_command w (pipInstallCommand venvPath requirementsPath) none s

/-- Lines 77-81: `run_initial_management_commands` issues makemigrations,
migrate, and collectstatic, each through `run_command` with a section
label. -/
def run_initial_management_commands (w : World) (venvPath projectDir : String) (s : St) :
    St × Outcome Unit :=
  let s := { s with out := s.out ++ [initialCommandsMessage] }
  andThen (run_command w (manageCommand venvPath projectDir "makemigrations")
      (some "makemigrations") s) fun s =>
  andThen (run_command w (manageCommand venvPath projectDir "migrate")
      (some "migrate") s) fun s =>
  run_command w (manageCommand venvPath projectDir "collectstatic --noinput")
      (some "collectstatic") s

/-- Lines 84-98: `start_django_server`.  Asks whether to start the server;
on an affirmative (`.lower() == "y"`) answer asks whether to expose it to
the network, and on the exposed path warns, attempts IP discovery (failure
is non-fatal), and launches on `0.0.0.0:80`; otherwise launches on the
default loopback binding.  Any other answer to the first prompt does
nothing. -/
def start_django_server (w : World) (venvPath projectDir : String) (s : St) :
    St × Outcome Unit :=
  andThenStr (promptInput w startServerQuestion w.startServerAns s) fun s start_server =>
    if pyLower start_server = "y" then
      andThenStr (promptInput w exposeQuestion w.exposeAns s) fun s expose_to_network =>
        if pyLower expose_to_network = "y" then
          let s := { s with out := s.out ++ [exposeWarning1, exposeWarning2] }
          let ir := get_local_ip w.sock
          let s := { s with out := s.out ++ ir.printed ++
            [match ir.result with
             | some ip => ipAccessMessage ip
             | none => ipUnknownMessage] }
          run_command w (manageCommand venvPath projectDir "runserver 0.0.0.0:80")
            (some "Django server") s
        else
          run_command w (manageCommand venvPath projectDir "runserver")
            (some "Django server") s
    else (s, Outcome.ok ())

/-- Lines 124-138 of `main`: the fall-through path taken when no venv
exists, or when the user answers the reinstall prompt with anything other
than (case-insensitive) "n": provision, activate, install, bootstrap,
optionally serve, then print the success message. -/
def provisionAndRun (w : World) (venvPath : String) (s : St) : St × Outcome Unit :=
  andThen (create_virtual_environment w venvPath s) fun s =>
  andThen (activate_virtual_environment w venvPath s) fun s =>
  andThen (install_dependencies w venvPath w.requirements s) fun s =>
  andThen (run_initial_management_commands w venvPath w.projectDir s) fun s =>
  andThen (start_django_server w venvPath w.projectDir s) fun s =>
  ({ s with out := s.out ++ [finalSuccessMessage] }, Outcome.ok ())

/-- Lines 100-139: the body of `main` inside the `try`. -/
def mainBody (w : World) : St × Outcome Unit :=
  let venvPath := pathJoin w.scriptDir "venv"
  if w.venvExists then
    andThenStr (promptInput w reinstallQuestion w.reinstallAns St.init)
      fun s reinstall_project =>
        if pyLower reinstall_project = "n" then
          andThenStr (promptInput w runAnywayQuestion w.runAnywayAns s)
            fun s run_management_commands =>
              andThen
                (if pyLower run_management_commands = "y" then
                  andThen (run_initial_management_commands w venvPath w.projectDir s)
                    fun s => start_django_server w venvPath w.projectDir s
                else (s, Outcome.ok ()))
                fun s => ({ s with out := s.out ++ [skipDoneMessage] }, Outcome.exited 0)
        else
          provisionAndRun w venvPath s
  else
    provisionAndRun w venvPath St.init

/-- Lines 100-142: `main` with its top-level `except KeyboardInterrupt`
handler.  The returned number is the process exit status: 0 for normal
completion, the argument of `sys.exit` otherwise, and 1 after an
interrupt is caught and reported. -/
def main (w : World) : St × Nat :=
  match mainBody w with
  | (s, Outcome.ok _) => (s, 0)
  | (s, Outcome.exited c) => (s, c)
  | (s, Outcome.interrupted) =>
      ({ s with out := s.out ++ [interruptMessage] }, 1)

/-- Spec-side predicate, written from the spec wording for the launcher
prompts: case-insensitive exact match on the affirmative token, with any
other input treated as negative.  It is compared below against the
behaviour of the source-derived definitions. -/
def specAffirmative (input token : String) : Bool := pyLower input == pyLower token

/-- Concrete run: no pre-existing venv, every command succeeds, the user
declines the server prompt, no interrupt. -/
def cw1 : World :=
  { venvExists := false, reinstallAns := "", runAnywayAns := "", startServerAns := "n",
    exposeAns := "", requirements := "requirements.txt", projectDir := "proj",
    scriptDir := "sd", cmdExit := fun _ => 0, interruptAt := none,
    sock := ⟨true, true, true, "192.168.0.2", "oops"⟩ }

/-- Concrete run: venv pre-exists, the user declines the reinstall prompt
(case-insensitively "n") and the run-anyway prompt. -/
def cw2 : World :=
  { venvExists := true, reinstallAns := "N", runAnywayAns := "nope", startServerAns := "",
    exposeAns := "", requirements := "requirements.txt", projectDir := "proj",
    scriptDir := "sd", cmdExit := fun _ => 0, interruptAt := none,
    sock := ⟨true, true, true, "192.168.0.2", "oops"⟩ }

/-- Concrete run interrupted at the very first interactive step. -/
def cw3 : World := { cw1 with interruptAt := some 0 }

/-- Concrete run: the user accepts both launcher prompts and IP discovery
fails at the connect step. -/
def cw5 : World :=
  { venvExists := false, reinstallAns := "", runAnywayAns := "", startServerAns := "y",
    exposeAns := "Y", requirements := "requirements.txt", projectDir := "proj",
    scriptDir := "sd", cmdExit := fun _ => 0, interruptAt := none,
    sock := ⟨true, false, true, "10.0.0.5", "timed out"⟩ }

/-- Socket environment whose connect step raises after the socket was
created. -/
def sockCex : SocketEnv := ⟨true, false, true, "10.0.0.5", "timed out"⟩


theorem promptInput_issued (w : World) (q a : String) (s : St) :
    ((promptInput w q a s).1).issued = s.issued := by
  unfold promptInput; split <;> simp

theorem run_command_issues (w : World) (c : String) (n : Option String) (s : St)
    (hi : ¬ w.interruptAt = some s.stepIdx) :
    ((run_command w c n s).1).issued = s.issued ++ [c] := by
  rcases n with _ | name <;>
    by_cases h0 : w.cmdExit s.cmdIdx = 0 <;>
    simp [run_command, hi, h0]

theorem issued_extends_run_command (w : World) (c : String) (n : Option String) (s : St) :
    ∃ t, ((run_command w c n s).1).issued = s.issued ++ t := by
  by_cases hi : w.interruptAt = some s.stepIdx
  · rcases n with _ | name <;> exact ⟨[], by simp [run_command, hi]⟩
  · exact ⟨[c], run_command_issues w c n s hi⟩

theorem issued_extends_andThenPair {r : St × Outcome Unit} {k : St → St × Outcome Unit}
    (base : List String)
    (hr : ∃ t, ((r.1)).issued = base ++ t)
    (hk : ∀ s, ∃ t, ((k s).1).issued = s.issued ++ t) :
    ∃ t, ((andThen r k).1).issued = base ++ t := by
  rcases r with ⟨s1, o⟩
  obtain ⟨t1, h1⟩ := hr
  rcases o with _ | c | _
  · obtain ⟨t2, h2⟩ := hk s1
    exact ⟨t1 ++ t2, by simp only [andThen]; rw [h2, h1, List.append_assoc]⟩
  · exact ⟨t1, by simpa [andThen] using h1⟩
  · exact ⟨t1, by simpa [andThen] using h1⟩

theorem issued_extends_andThenStrPair {r : St × Outcome String}
    {k : St → String → St × Outcome Unit} (base : List String)
    (hr : ((r.1)).issued = base)
    (hk : ∀ s a, ∃ t, ((k s a).1).issued = s.issued ++ t) :
    ∃ t, ((andThenStr r k).1).issued = base ++ t := by
  rcases r with ⟨s1, o⟩
  rcases o with a | c | _
  · obtain ⟨t2, h2⟩ := hk s1 a
    exact ⟨t2, by simp only [andThenStr]; rw [h2, hr]⟩
  · exact ⟨[], by simpa [andThenStr] using hr⟩
  · exact ⟨[], by simpa [andThenStr] using hr⟩

theorem issued_extends_rimc (w : World) (v p : String) (s : St) :
    ∃ t, ((run_initial_management_commands w v p s).1).issued = s.issued ++ t := by
  unfold run_initial_management_commands
  refine issued_extends_andThenPair s.issued ?_ ?_
  · simpa using issued_extends_run_command w _ _ _
  · intro s1
    refine issued_extends_andThenPair s1.issued ?_ ?_
    · exact issued_extends_run_command w _ _ _
    · intro s2
      exact issued_extends_run_command w _ _ _

theorem issued_extends_sds (w : World) (v p : String) (s : St) :
    ∃ t, ((start_django_server w v p s).1).issued = s.issued ++ t := by
  unfold start_django_server
  refine issued_extends_andThenStrPair s.issued (promptInput_issued w _ _ _) ?_
  intro s1 a
  by_cases hy : pyLower a = "y"
  · rw [if_pos hy]
    refine issued_extends_andThenStrPair s1.issued (promptInput_issued w _ _ _) ?_
    intro s2 b
    by_cases he : pyLower b = "y"
    · rw [if_pos he]
      simpa using issued_extends_run_command w _ _ _
    · rw [if_neg he]
      exact issued_extends_run_command w _ _ _
  · rw [if_neg hy]
    exact ⟨[], by simp⟩

theorem rimc_first (w : World) (v p : String) (s : St)
    (hi : ¬ w.interruptAt = some s.stepIdx) :
    ∃ t, ((run_initial_management_commands w v p s).1).issued =
      s.issued ++ manageCommand v p "makemigrations" :: t := by
  unfold run_initial_management_commands
  have h1 := run_command_issues w (manageCommand v p "makemigrations")
    (some "makemigrations") { s with out := s.out ++ [initialCommandsMessage] } hi
  have hk : ∀ s1, ∃ t, ((andThen (run_command w (manageCommand v p "migrate")
      (some "migrate") s1) fun s2 => run_command w
      (manageCommand v p "collectstatic --noinput") (some "collectstatic") s2).1).issued =
      s1.issued ++ t := by
    intro s1
    refine issued_extends_andThenPair s1.issued (issued_extends_run_command w _ _ _) ?_
    intro s2
    exact issued_extends_run_command w _ _ _
  obtain ⟨t, ht⟩ := issued_extends_andThenPair (s.issued ++ [manageCommand v p "makemigrations"])
    ⟨[], by simpa using h1⟩ hk
  exact ⟨t, by simpa [List.append_assoc] using ht⟩

theorem provisionAndRun_first (w : World) (v : String) (s : St) :
    (w.interruptAt = some s.stepIdx ∧ ((provisionAndRun w v s).1).issued = s.issued) ∨
    ∃ t, ((provisionAndRun w v s).1).issued = s.issued ++ venvCreateCommand v :: t := by
  unfold provisionAndRun create_virtual_environment
  by_cases hi : w.interruptAt = some s.stepIdx
  · left
    exact ⟨hi, by simp [run_command, andThen, hi]⟩
  · right
    have h1 := run_command_issues w (venvCreateCommand v) none
      { s with out := s.out ++ [creatingVenvMessage] } hi
    have hk : ∀ s1, ∃ t, ((andThen (activate_virtual_environment w v s1) fun s2 =>
        andThen (install_dependencies w v w.requirements s2) fun s3 =>
        andThen (run_initial_management_commands w v w.projectDir s3) fun s4 =>
        andThen (start_django_server w v w.projectDir s4) fun s5 =>
        ({ s5 with out := s5.out ++ [finalSuccessMessage] }, Outcome.ok ())).1).issued =
        s1.issued ++ t := by
      intro s1
      refine issued_extends_andThenPair s1.issued ?_ ?_
      · exact issued_extends_run_command w _ _ _
      · intro s2
        refine issued_extends_andThenPair s2.issued ?_ ?_
        · unfold install_dependencies
          simpa using issued_extends_run_command w (pipInstallCommand v w.requirements) none
            { s2 with out := s2.out ++ [installingMessage] }
        · intro s3
          refine issued_extends_andThenPair s3.issued (issued_extends_rimc w _ _ _) ?_
          intro s4
          refine issued_extends_andThenPair s4.issued (issued_extends_sds w _ _ _) ?_
          intro s5
          exact ⟨[], by simp⟩
    obtain ⟨t, ht⟩ := issued_extends_andThenPair (s.issued ++ [venvCreateCommand v])
      ⟨[], by simpa using h1⟩ hk
    exact ⟨t, by simpa [List.append_assoc] using ht⟩

theorem main_issued (w : World) : ((main w).1).issued = ((mainBody w).1).issued := by
  unfold main
  rcases hm : mainBody w with ⟨s, o⟩
  rcases o <;> simp

theorem get_local_ip_printed_none (env : SocketEnv) (h : (get_local_ip env).result = none) :
    (get_local_ip env).printed = [ipErrorMessage env.errText] := by
  unfold get_local_ip at h ⊢
  rcases hs : env.socketOk <;> rcases hc : env.connectOk <;> rcases hg : env.getsocknameOk <;>
    simp [hs, hc, hg] at h ⊢

theorem manageCommand_ne (v p : String) {a b : String} (hne : a ≠ b) :
    manageCommand v p a ≠ manageCommand v p b := by
  intro hEq
  apply hne
  unfold manageCommand at hEq
  have hd := congrArg String.data hEq
  simp only [String.data_append, List.append_assoc, List.append_cancel_left_eq] at hd
  exact String.ext hd

theorem pyLower_y : pyLower "y" = "y" := by decide

theorem specAffirmative_iff (a : String) :
    specAffirmative a "y" = true ↔ pyLower a = "y" := by
  simp [specAffirmative, pyLower_y]

/-- Claim C1 (amended): when the venv path does not pre-exist and every
command succeeds with no interrupt, the issued command sequence is exactly
create-environment, activate-environment (an extra command the original
claim omits), install(R), makemigrations(P), migrate(P), collectstatic(P),
and optionally runserver(P), in that literal order; moreover, on every
fresh-venv path whatsoever (failures and interrupts included) the first
command issued, if any, is environment creation, so provisioning precedes
dependency installation. -/
theorem fresh_run_issues_exact_sequence (w : World) (hv : w.venvExists = false) :
    ((w.interruptAt = none → (∀ i, w.cmdExit i = 0) →
      ((main w).1).issued =
        [venvCreateCommand (pathJoin w.scriptDir "venv"),
         activateScript (pathJoin w.scriptDir "venv"),
         pipInstallCommand (pathJoin w.scriptDir "venv") w.requirements,
         manageCommand (pathJoin w.scriptDir "venv") w.projectDir "makemigrations",
         manageCommand (pathJoin w.scriptDir "venv") w.projectDir "migrate",
         manageCommand (pathJoin w.scriptDir "venv") w.projectDir "collectstatic --noinput"] ++
        (if pyLower w.startServerAns = "y" then
          [if pyLower w.exposeAns = "y" then
             manageCommand (pathJoin w.scriptDir "venv") w.projectDir "runserver 0.0.0.0:80"
           else manageCommand (pathJoin w.scriptDir "venv") w.projectDir "runserver"]
         else []) : Prop) ∧
     (((main w).1).issued.head? =
        some (venvCreateCommand (pathJoin w.scriptDir "venv")) ∨
      ((main w).1).issued = [])) := by
  constructor
  · intro h hc
    by_cases hs : pyLower w.startServerAns = "y" <;> by_cases he : pyLower w.exposeAns = "y" <;>
      simp [main, mainBody, provisionAndRun, create_virtual_environment,
        activate_virtual_environment, install_dependencies, run_initial_management_commands,
        start_django_server, run_command, promptInput, andThen, andThenStr, St.init,
        hv, h, hc, hs, he]
  · rw [main_issued]
    have hmb : mainBody w = provisionAndRun w (pathJoin w.scriptDir "venv") St.init := by
      simp [mainBody, hv]
    rw [hmb]
    rcases provisionAndRun_first w (pathJoin w.scriptDir "venv") St.init with ⟨_, hiss⟩ | ⟨t, ht⟩
    · right
      rw [hiss]
      rfl
    · left
      rw [ht]
      rfl

/-- Claim C1 counterexample: on a concrete fresh all-success run declining
the server prompt, the issued sequence is not the five-command sequence
the claim states (the activate command is interleaved after creation). -/
theorem fresh_run_counterexample :
    ((main cw1).1).issued ≠
      [venvCreateCommand (pathJoin "sd" "venv"),
       pipInstallCommand (pathJoin "sd" "venv") "requirements.txt",
       manageCommand (pathJoin "sd" "venv") "proj" "makemigrations",
       manageCommand (pathJoin "sd" "venv") "proj" "migrate",
       manageCommand (pathJoin "sd" "venv") "proj" "collectstatic --noinput"] := by
  decide

/-- Claim C1 witness: the amended sequence theorem evaluated on the
concrete world `cw1`. -/
theorem fresh_run_sequence_witness :
    ((main cw1).1).issued =
      [venvCreateCommand (pathJoin "sd" "venv"),
       activateScript (pathJoin "sd" "venv"),
       pipInstallCommand (pathJoin "sd" "venv") "requirements.txt",
       manageCommand (pathJoin "sd" "venv") "proj" "makemigrations",
       manageCommand (pathJoin "sd" "venv") "proj" "migrate",
       manageCommand (pathJoin "sd" "venv") "proj" "collectstatic --noinput"] := by
  have h := (fresh_run_issues_exact_sequence cw1 rfl).1 rfl (fun i => rfl)
  simpa using h

/-- Claim C2: for every command string and optional label, `run_command`
issues the command exactly once (no retry); on child exit status zero it
returns normally and prints the confirmation marker, and on a non-zero
exit status it prints the error detail and terminates the process with
exit status 1, never returning the error to its caller. -/
theorem run_command_success_failure_contract (w : World) (c : String) (n : Option String)
    (s : St) (h : w.interruptAt = none) :
    (((run_command w c n s).1).issued = s.issued ++ [c]) ∧
    (w.cmdExit s.cmdIdx = 0 →
      (run_command w c n s).2 = Outcome.ok () ∧
      doneMessage ∈ ((run_command w c n s).1).out) ∧
    (w.cmdExit s.cmdIdx ≠ 0 →
      (run_command w c n s).2 = Outcome.exited 1 ∧
      errorMessage (w.cmdExit s.cmdIdx) ∈ ((run_command w c n s).1).out) := by
  have hi : ¬ w.interruptAt = some s.stepIdx := by simp [h]
  refine ⟨run_command_issues w c n s hi, ?_, ?_⟩ <;> intro h0 <;>
    rcases n with _ | name <;> simp [run_command, hi, h0]

/-- Claim C2 witness: the contract evaluated on a concrete successful
command. -/
theorem run_command_contract_witness :
    (run_command cw1 "cmd" none St.init).2 = Outcome.ok () ∧
    doneMessage ∈ ((run_command cw1 "cmd" none St.init).1).out :=
  (run_command_success_failure_contract cw1 "cmd" none St.init rfl).2.1 rfl

/-- Claim C3: `run_initial_management_commands` issues exactly three
subcommands in the fixed order makemigrations, migrate, collectstatic,
each as a separate Command Runner invocation; if any one fails, the
subsequent ones are never invoked and the process exits with status 1. -/
theorem bootstrap_fixed_order_abort_on_failure (w : World) (v p : String) (s : St)
    (h : w.interruptAt = none) :
    (w.cmdExit s.cmdIdx ≠ 0 →
      ((run_initial_management_commands w v p s).1).issued =
        s.issued ++ [manageCommand v p "makemigrations"] ∧
      (run_initial_management_commands w v p s).2 = Outcome.exited 1) ∧
    (w.cmdExit s.cmdIdx = 0 → w.cmdExit (s.cmdIdx + 1) ≠ 0 →
      ((run_initial_management_commands w v p s).1).issued =
        s.issued ++ [manageCommand v p "makemigrations", manageCommand v p "migrate"] ∧
      (run_initial_management_commands w v p s).2 = Outcome.exited 1) ∧
    (w.cmdExit s.cmdIdx = 0 → w.cmdExit (s.cmdIdx + 1) = 0 → w.cmdExit (s.cmdIdx + 2) ≠ 0 →
      ((run_initial_management_commands w v p s).1).issued =
        s.issued ++ [manageCommand v p "makemigrations", manageCommand v p "migrate",
          manageCommand v p "collectstatic --noinput"] ∧
      (run_initial_management_commands w v p s).2 = Outcome.exited 1) ∧
    (w.cmdExit s.cmdIdx = 0 → w.cmdExit (s.cmdIdx + 1) = 0 → w.cmdExit (s.cmdIdx + 2) = 0 →
      ((run_initial_management_commands w v p s).1).issued =
        s.issued ++ [manageCommand v p "makemigrations", manageCommand v p "migrate",
          manageCommand v p "collectstatic --noinput"] ∧
      (run_initial_management_commands w v p s).2 = Outcome.ok ()) := by
  refine ⟨?_, ?_, ?_, ?_⟩ <;> intros <;>
    constructor <;>
    simp [run_initial_management_commands, run_command, andThen, h, *]

/-- Claim C3 witness: the bootstrap contract evaluated on a concrete
all-success run. -/
theorem bootstrap_contract_witness :
    ((run_initial_management_commands cw1 "v" "p" St.init).1).issued =
      [manageCommand "v" "p" "makemigrations", manageCommand "v" "p" "migrate",
       manageCommand "v" "p" "collectstatic --noinput"] ∧
    (run_initial_management_commands cw1 "v" "p" St.init).2 = Outcome.ok () := by
  have h := (bootstrap_fixed_order_abort_on_failure cw1 "v" "p" St.init rfl).2.2.2 rfl rfl rfl
  simpa using h

/-- Claim C4: when the environment pre-exists and the user declines both
the reinstall prompt (case-insensitive "n") and the run-anyway prompt
(anything but case-insensitive "y"), the process exits with status 0 and
issues no command at all, printing the skip-completion message. -/
theorem decline_both_prompts_clean_exit (w : World) (hv : w.venvExists = true)
    (h : w.interruptAt = none) (hr : pyLower w.reinstallAns = "n")
    (ha : pyLower w.runAnywayAns ≠ "y") :
    (main w).2 = 0 ∧ ((main w).1).issued = [] ∧
    skipDoneMessage ∈ ((main w).1).out := by
  refine ⟨?_, ?_, ?_⟩ <;>
    simp [main, mainBody, promptInput, andThen, andThenStr, St.init, hv, h, hr, ha]

/-- Claim C4 witness: the skip branch evaluated on the concrete world
`cw2`. -/
theorem decline_both_prompts_witness :
    (main cw2).2 = 0 ∧ ((main cw2).1).issued = [] ∧
    skipDoneMessage ∈ ((main cw2).1).out :=
  decline_both_prompts_clean_exit cw2 rfl rfl (by decide) (by decide)

/-- Claim C5: on the all-interfaces launch path, IP discovery failure
never aborts the run: `get_local_ip` returns `none` after printing the
error (it is a total function here, never propagating an exception), the
warning message is shown, and the all-interfaces server launch command is
still issued. -/
theorem ip_discovery_failure_nonfatal (w : World) (v p : String) (s : St)
    (h : w.interruptAt = none) (hs : pyLower w.startServerAns = "y")
    (he : pyLower w.exposeAns = "y") :
    manageCommand v p "runserver 0.0.0.0:80" ∈ ((start_django_server w v p s).1).issued ∧
    ((get_local_ip w.sock).result = none →
      (get_local_ip w.sock).printed = [ipErrorMessage w.sock.errText] ∧
      ipUnknownMessage ∈ ((start_django_server w v p s).1).out) := by
  constructor
  · by_cases h0 : w.cmdExit s.cmdIdx = 0 <;>
      simp [start_django_server, andThenStr, promptInput, run_command, h, hs, he, h0]
  · intro hn
    refine ⟨get_local_ip_printed_none w.sock hn, ?_⟩
    by_cases h0 : w.cmdExit s.cmdIdx = 0 <;>
      simp [start_django_server, andThenStr, promptInput, run_command, h, hs, he, h0, hn]

/-- Claim C5 witness: evaluated on the concrete world `cw5`, whose
connect step fails. -/
theorem ip_discovery_failure_witness :
    manageCommand "v" "p" "runserver 0.0.0.0:80" ∈
      ((start_django_server cw5 "v" "p" St.init).1).issued ∧
    ipUnknownMessage ∈ ((start_django_server cw5 "v" "p" St.init).1).out := by
  have h := ip_discovery_failure_nonfatal cw5 "v" "p" St.init rfl (by decide) (by decide)
  exact ⟨h.1, (h.2 (by decide)).2⟩

/-- Claim C6 counterexample: in an environment where socket creation
succeeds but the connect step raises, the socket is created yet never
closed — refuting closure on every execution path. -/
theorem socket_close_counterexample :
    (get_local_ip sockCex).socketCreated = true ∧
    (get_local_ip sockCex).socketClosed = false := by decide

/-- Claim C6 (amended): the diagnostic socket is closed exactly when the
address lookup succeeds; on the exception path after socket creation it
is left unclosed, because `s.close()` sits on the success path only and
the function has no finally clause. -/
theorem socket_closed_iff_lookup_succeeds (env : SocketEnv) :
    (get_local_ip env).socketClosed = ((get_local_ip env).result).isSome := by
  unfold get_local_ip
  rcases hs : env.socketOk <;> rcases hc : env.connectOk <;>
    rcases hg : env.getsocknameOk <;> simp

/-- Claim C7: for each of the two launcher prompts and every input
string, the input is treated as affirmative exactly when it
case-insensitively equals the affirmative token "y" (the spec-side
predicate `specAffirmative`), and every other input is treated as
negative: a server command is issued iff the first answer is affirmative,
and it is the all-interfaces launch iff the second is. -/
theorem launcher_prompts_affirmative_convention (w : World) (v p : String) (s : St)
    (h : w.interruptAt = none) :
    ((((start_django_server w v p s).1).issued ≠ s.issued) ↔
      specAffirmative w.startServerAns "y" = true) ∧
    (specAffirmative w.startServerAns "y" = true →
      ((((start_django_server w v p s).1).issued =
          s.issued ++ [manageCommand v p "runserver 0.0.0.0:80"]) ↔
        specAffirmative w.exposeAns "y" = true) ∧
      (specAffirmative w.exposeAns "y" = false →
        ((start_django_server w v p s).1).issued =
          s.issued ++ [manageCommand v p "runserver"])) := by
  by_cases hs : pyLower w.startServerAns = "y"
  · by_cases he : pyLower w.exposeAns = "y"
    · have hiss : ((start_django_server w v p s).1).issued =
          s.issued ++ [manageCommand v p "runserver 0.0.0.0:80"] := by
        by_cases h0 : w.cmdExit s.cmdIdx = 0 <;>
          simp [start_django_server, andThenStr, promptInput, run_command, h, hs, he, h0]
      refine ⟨?_, fun _ => ⟨?_, fun hf => ?_⟩⟩
      · rw [hiss]
        simp [specAffirmative_iff, hs]
      · rw [hiss]
        simp [specAffirmative_iff, he]
      · exfalso
        have htr : specAffirmative w.exposeAns "y" = true := (specAffirmative_iff _).mpr he
        rw [htr] at hf
        cases hf
    · have hiss : ((start_django_server w v p s).1).issued =
          s.issued ++ [manageCommand v p "runserver"] := by
        by_cases h0 : w.cmdExit s.cmdIdx = 0 <;>
          simp [start_django_server, andThenStr, promptInput, run_command, h, hs, he, h0]
      refine ⟨?_, fun _ => ⟨?_, fun _ => hiss⟩⟩
      · rw [hiss]
        simp [specAffirmative_iff, hs]
      · rw [hiss]
        constructor
        · intro hEq
          exfalso
          have := List.append_cancel_left hEq
          simp at this
          exact manageCommand_ne v p (by decide) this
        · intro hy
          rw [specAffirmative_iff] at hy
          exact absurd hy he
  · have hiss : ((start_django_server w v p s).1).issued = s.issued := by
      simp [start_django_server, andThenStr, promptInput, h, hs]
    refine ⟨?_, fun hy => ?_⟩
    · rw [hiss]
      simp [specAffirmative_iff, hs]
    · rw [specAffirmative_iff] at hy
      exact absurd hy hs

/-- Claim C7 witness: evaluated on the concrete world `cw5` ("y" and
"Y" answers). -/
theorem launcher_prompts_witness :
    (((start_django_server cw5 "v" "p" St.init).1).issued ≠ St.init.issued) ∧
    ((start_django_server cw5 "v" "p" St.init).1).issued =
      St.init.issued ++ [manageCommand "v" "p" "runserver 0.0.0.0:80"] := by
  have h := launcher_prompts_affirmative_convention cw5 "v" "p" St.init rfl
  exact ⟨h.1.mpr (by decide), (h.2 (by decide)).1.mpr (by decide)⟩

/-- Claim C8: on a fresh all-success run, any input declining the start
prompt issues no server-launch command (the "Django server" section never
runs), the expose prompt is never asked, and the run completes with exit
status 0 printing the overall success message. -/
theorem decline_server_prompt_no_launch (w : World) (hv : w.venvExists = false)
    (h : w.interruptAt = none) (hc : ∀ i, w.cmdExit i = 0)
    (hs : pyLower w.startServerAns ≠ "y") :
    (main w).2 = 0 ∧
    ((main w).1).issued =
      [venvCreateCommand (pathJoin w.scriptDir "venv"),
       activateScript (pathJoin w.scriptDir "venv"),
       pipInstallCommand (pathJoin w.scriptDir "venv") w.requirements,
       manageCommand (pathJoin w.scriptDir "venv") w.projectDir "makemigrations",
       manageCommand (pathJoin w.scriptDir "venv") w.projectDir "migrate",
       manageCommand (pathJoin w.scriptDir "venv") w.projectDir "collectstatic --noinput"] ∧
    exposeQuestion ∉ ((main w).1).out ∧
    sectionMessage "Django server" ∉ ((main w).1).out ∧
    finalSuccessMessage ∈ ((main w).1).out := by
  have hout : ((main w).1).out =
      [creatingVenvMessage, doneMessage, doneMessage, installingMessage, doneMessage,
       initialCommandsMessage, sectionMessage "makemigrations", doneMessage,
       sectionMessage "migrate", doneMessage, sectionMessage "collectstatic", doneMessage,
       startServerQuestion, finalSuccessMessage] := by
    simp [main, mainBody, provisionAndRun, create_virtual_environment,
      activate_virtual_environment, install_dependencies, run_initial_management_commands,
      start_django_server, run_command, promptInput, andThen, andThenStr, St.init,
      hv, h, hc, hs]
  refine ⟨?_, ?_, ?_, ?_, ?_⟩
  · simp [main, mainBody, provisionAndRun, create_virtual_environment,
      activate_virtual_environment, install_dependencies, run_initial_management_commands,
      start_django_server, run_command, promptInput, andThen, andThenStr, St.init,
      hv, h, hc, hs]
  · simp [main, mainBody, provisionAndRun, create_virtual_environment,
      activate_virtual_environment, install_dependencies, run_initial_management_commands,
      start_django_server, run_command, promptInput, andThen, andThenStr, St.init,
      hv, h, hc, hs]
  · rw [hout]; decide
  · rw [hout]; decide
  · rw [hout]; decide

/-- Claim C8 witness: evaluated on the concrete world `cw1` (answer
"n"). -/
theorem decline_server_prompt_witness :
    (main cw1).2 = 0 ∧
    exposeQuestion ∉ ((main cw1).1).out ∧
    sectionMessage "Django server" ∉ ((main cw1).1).out ∧
    finalSuccessMessage ∈ ((main cw1).1).out := by
  have h := decline_server_prompt_no_launch cw1 rfl rfl (fun i => rfl) (by decide)
  exact ⟨h.1, h.2.2.1, h.2.2.2.1, h.2.2.2.2⟩

/-- Claim C9: a KeyboardInterrupt arising anywhere inside the body of
`main` reaches the single top-level handler, which prints the clear
interrupt message and exits with status 1. -/
theorem keyboard_interrupt_top_level (w : World)
    (h : (mainBody w).2 = Outcome.interrupted) :
    (main w).2 = 1 ∧ interruptMessage ∈ ((main w).1).out := by
  unfold main
  rcases hm : mainBody w with ⟨s, o⟩
  rw [hm] at h
  simp at h
  subst h
  simp

/-- Claim C9 witness: evaluated on the concrete world `cw3`, interrupted
at the first interactive step. -/
theorem keyboard_interrupt_witness :
    (main cw3).2 = 1 ∧ interruptMessage ∈ ((main cw3).1).out :=
  keyboard_interrupt_top_level cw3 (by decide)

/-- Claim C10: the reinstall prompt uses the opposite convention from the
launcher prompts: any answer other than case-insensitive "n" (empty
string and garbage included) triggers recreation of the environment (the
first command issued is environment creation), while after declining with
"n" the secondary prompt treats only case-insensitive "y" as affirmative
(then the first command issued is makemigrations; otherwise no command is
issued at all). -/
theorem reinstall_prompt_inverted_convention (w : World) (hv : w.venvExists = true)
    (h : w.interruptAt = none) :
    (pyLower w.reinstallAns ≠ "n" →
      ((main w).1).issued.head? =
        some (venvCreateCommand (pathJoin w.scriptDir "venv"))) ∧
    (pyLower w.reinstallAns = "n" →
      (pyLower w.runAnywayAns = "y" →
        ((main w).1).issued.head? =
          some (manageCommand (pathJoin w.scriptDir "venv") w.projectDir "makemigrations")) ∧
      (pyLower w.runAnywayAns ≠ "y" → ((main w).1).issued = [])) := by
  constructor
  · intro hr
    rw [main_issued]
    have hmb : mainBody w = provisionAndRun w (pathJoin w.scriptDir "venv")
        { issued := [], cmdIdx := 0, stepIdx := 1, out := [reinstallQuestion] } := by
      simp [mainBody, andThenStr, promptInput, St.init, hv, h, hr]
    rw [hmb]
    rcases provisionAndRun_first w (pathJoin w.scriptDir "venv")
        { issued := [], cmdIdx := 0, stepIdx := 1, out := [reinstallQuestion] }
      with ⟨hi, _⟩ | ⟨t, ht⟩
    · rw [h] at hi
      cases hi
    · rw [ht]
      rfl
  · intro hr
    constructor
    · intro ha
      rw [main_issued]
      have hmb : mainBody w =
          andThen (andThen (run_initial_management_commands w (pathJoin w.scriptDir "venv")
              w.projectDir ⟨[], 0, 2, [reinstallQuestion, runAnywayQuestion]⟩)
            (fun s => start_django_server w (pathJoin w.scriptDir "venv") w.projectDir s))
            (fun s => ({ s with out := s.out ++ [skipDoneMessage] }, Outcome.exited 0)) := by
        simp [mainBody, andThenStr, promptInput, St.init, hv, h, hr, ha]
      rw [hmb]
      have h1 := rimc_first w (pathJoin w.scriptDir "venv") w.projectDir
        ⟨[], 0, 2, [reinstallQuestion, runAnywayQuestion]⟩ (by simp [h])
      obtain ⟨t1, ht1⟩ := h1
      have h2 := issued_extends_andThenPair
        (k := fun s => start_django_server w (pathJoin w.scriptDir "venv") w.projectDir s)
        ([manageCommand (pathJoin w.scriptDir "venv") w.projectDir "makemigrations"])
        ⟨t1, by simpa using ht1⟩
        (fun s => issued_extends_sds w (pathJoin w.scriptDir "venv") w.projectDir s)
      obtain ⟨t2, ht2⟩ := issued_extends_andThenPair
        (k := fun s => ({ s with out := s.out ++ [skipDoneMessage] }, Outcome.exited 0))
        ([manageCommand (pathJoin w.scriptDir "venv") w.projectDir "makemigrations"])
        h2 (fun s => ⟨[], by simp⟩)
      rw [ht2]
      rfl
    · intro ha
      simp [main, mainBody, promptInput, andThen, andThenStr, St.init, hv, h, hr, ha]

/-- Claim C10 witness: evaluated on the concrete world `cw2` ("N" then
"nope"). -/
theorem reinstall_prompt_witness :
    ((main cw2).1).issued = [] := by
  have h := reinstall_prompt_inverted_convention cw2 rfl rfl
  exact (h.2 (by decide)).2 (by decide)


end QuickSetup
